import Mathlib

/-
Verification of the autoaudit Verification Pipeline and Template Decision
Cache against its specification.

The definitions below are a shallow embedding of the Python source:
  * src/server/core/database.py        (ComplianceDatabase: templates and
    template_rules tables, save_template, get_template, save_template_rule,
    get_template_rule)
  * src/server/core/template_manager.py (TemplateManager: get_rule_status,
    update_rule_status, should_skip_visual_verification)
  * src/server/core/extraction_templates.py (ExtractionTemplate.extract,
    ExtractionTemplateManager.get_template / _load_template)
  * src/server/core/main_hybrid.py     (HybridComplianceChecker.check_url,
    step 4 escalation + visual loop + aggregation)

Conventions of the embedding:
  * SQLite tables are association lists of records; the UNIQUE constraints
    of the schema are carried as explicit hypotheses where a claim needs
    them.  An SQL upsert (INSERT ... ON CONFLICT DO UPDATE) updates the
    matching row in place when one exists and appends otherwise.
  * Python dict .get with a default is modelled by Option plus getD.
  * Fallible external effects (the multimodal model call, the SQLite layer
    raising during a cache write) are oracles in a CheckEnv record; a raised
    exception is an Except.error value, and a Python try/except that
    swallows the exception is the corresponding match absorbing it.
  * Confidence scores are rationals (Rat); the Python literal 0.85 is 85/100.
  * Wall-clock fields (verified_date, timestamps, screenshot paths) are
    outside the model.
-/

namespace AutoAudit

/-- Python truthiness of an optional string argument: None and the empty
string are falsy. -/
def pyTruthy : Option String → Bool
  | none => false
  | some s => !s.isEmpty

/-! ## Python string primitives

Structurally recursive models of the Python string methods the pipeline
uses (str.upper, str.lower, str.strip, str.split, str.replace and the
netloc component of urllib.parse.urlparse), over the character list of a
string. -/

/-- ASCII uppercasing of one character (Python str.upper on the alphabets
the pipeline compares). -/
def charUpper (c : Char) : Char :=
  if 97 ≤ c.toNat ∧ c.toNat ≤ 122 then Char.ofNat (c.toNat - 32) else c

/-- ASCII lowercasing of one character. -/
def charLower (c : Char) : Char :=
  if 65 ≤ c.toNat ∧ c.toNat ≤ 90 then Char.ofNat (c.toNat + 32) else c

/-- Python str.upper. -/
def pyUpper (s : String) : String := ⟨s.data.map charUpper⟩

/-- Python str.lower. -/
def pyLower (s : String) : String := ⟨s.data.map charLower⟩

/-- Python str.strip: drop leading and trailing whitespace. -/
def pyStrip (s : String) : String :=
  ⟨((s.data.dropWhile Char.isWhitespace).reverse.dropWhile
      Char.isWhitespace).reverse⟩

/-- Python str.split(sep) for a one-character separator, on character
lists. -/
def splitCharList (sep : Char) : List Char → List (List Char)
  | [] => [[]]
  | c :: r =>
    match splitCharList sep r with
    | [] => [[]]
    | g :: gs => if c == sep then [] :: g :: gs else (c :: g) :: gs

/-- Python str.split(sep) for a one-character separator. -/
def pySplitChar (sep : Char) (s : String) : List String :=
  (splitCharList sep s.data).map (fun l => ⟨l⟩)

/-- Python str.replace(old, new) when old and new are single characters. -/
def replaceChar (a b : Char) (s : String) : String :=
  ⟨s.data.map (fun c => if c == a then b else c)⟩

/-- Python str.replace("www.", ""): remove the non-overlapping occurrences
of www. left to right. -/
def removeWwwList : List Char → List Char
  | 'w' :: 'w' :: 'w' :: '.' :: r => removeWwwList r
  | c :: r => c :: removeWwwList r
  | [] => []

/-- The character list after the first double slash, if any (the authority
position of urllib.parse.urlparse). -/
def afterDoubleSlash : List Char → Option (List Char)
  | '/' :: '/' :: r => some r
  | _ :: r => afterDoubleSlash r
  | [] => none

/-! ## ComplianceDatabase (src/server/core/database.py)

The templates table (template_id UNIQUE, platform) and the template_rules
table (UNIQUE(template_id, rule_key), status, confidence REAL NOT NULL,
verification_method, notes, both nullable). -/

/-- A row of the templates table. -/
structure TemplateRecord where
  templateId : String
  platform : String
deriving Repr, DecidableEq

/-- A row of the template_rules table (the Template Decision Cache). -/
structure TemplateRuleRecord where
  templateId : String
  ruleKey : String
  status : String
  confidence : Rat
  verificationMethod : Option String
  notes : Option String
deriving Repr, DecidableEq

/-- The persistent store backing TemplateManager: the two tables the
Template Decision Cache uses. -/
structure ComplianceDatabase where
  templates : List TemplateRecord
  templateRules : List TemplateRuleRecord
deriving Repr, DecidableEq

/-- Row predicate for the (template_id, rule_key) cache key. -/
def ruleKeyMatches (tid rk : String) (e : TemplateRuleRecord) : Bool :=
  e.templateId == tid && e.ruleKey == rk

/-- Row predicate for the template_id key of the templates table. -/
def templateIdMatches (tid : String) (t : TemplateRecord) : Bool :=
  t.templateId == tid

/-- ComplianceDatabase.get_template: SELECT * FROM templates WHERE
template_id = ?. -/
def ComplianceDatabase.get_template (db : ComplianceDatabase) (tid : String) :
    Option TemplateRecord :=
  db.templates.find? (templateIdMatches tid)

/-- The DO UPDATE action of save_template on one row: overwrite the
platform of the row whose template_id hits the conflict. -/
def updatePlatformIf (tid platform : String) (t : TemplateRecord) :
    TemplateRecord :=
  if t.templateId == tid then { t with platform := platform } else t

/-- ComplianceDatabase.save_template: INSERT ... ON CONFLICT(template_id)
DO UPDATE SET platform = excluded.platform.  (The config column is unused by
the pipeline and omitted.) -/
def ComplianceDatabase.save_template (db : ComplianceDatabase)
    (tid platform : String) : ComplianceDatabase :=
  if db.templates.any (templateIdMatches tid) then
    { db with templates := db.templates.map (updatePlatformIf tid platform) }
  else
    { db with templates := db.templates ++ [⟨tid, platform⟩] }

/-- The DO UPDATE action of save_template_rule on one row: overwrite the
decision fields of the row whose (template_id, rule_key) hits the conflict. -/
def updateRuleIf (tid rk status : String) (confidence : Rat)
    (vm notes : Option String) (e : TemplateRuleRecord) : TemplateRuleRecord :=
  if ruleKeyMatches tid rk e then
    { e with status := status, confidence := confidence,
             verificationMethod := vm, notes := notes }
  else e

/-- ComplianceDatabase.save_template_rule: INSERT ... ON
CONFLICT(template_id, rule_key) DO UPDATE SET status, confidence,
verification_method, notes (verified_date is wall-clock and outside the
model). -/
def ComplianceDatabase.save_template_rule (db : ComplianceDatabase)
    (tid rk status : String) (confidence : Rat)
    (vm notes : Option String) : ComplianceDatabase :=
  if db.templateRules.any (ruleKeyMatches tid rk) then
    { db with templateRules :=
        db.templateRules.map (updateRuleIf tid rk status confidence vm notes) }
  else
    { db with templateRules :=
        db.templateRules ++ [⟨tid, rk, status, confidence, vm, notes⟩] }

/-- ComplianceDatabase.get_template_rule: SELECT * FROM template_rules WHERE
template_id = ? AND rule_key = ?. -/
def ComplianceDatabase.get_template_rule (db : ComplianceDatabase)
    (tid rk : String) : Option TemplateRuleRecord :=
  db.templateRules.find? (ruleKeyMatches tid rk)

/-- Number of cache rows currently stored under a (template_id, rule_key)
key.  The schema declares UNIQUE(template_id, rule_key), so a well-formed
database has at most one. -/
def ruleEntryCount (db : ComplianceDatabase) (tid rk : String) : Nat :=
  (db.templateRules.filter (ruleKeyMatches tid rk)).length

/-! ## TemplateManager (src/server/core/template_manager.py) -/

/-- The dictionary returned by TemplateManager.get_rule_status (the
verified_date field is wall-clock and outside the model). -/
structure RuleStatus where
  status : String
  confidence : Rat
  verificationMethod : Option String
  notes : Option String
deriving Repr, DecidableEq

/-- TemplateManager.get_rule_status: look up the cached decision and repack
its fields; None when no row exists. -/
def get_rule_status (db : ComplianceDatabase) (tid rule : String) :
    Option RuleStatus :=
  (db.get_template_rule tid rule).map
    (fun r => ⟨r.status, r.confidence, r.verificationMethod, r.notes⟩)

/-- The 0.85 confidence threshold (the default of
should_skip_visual_verification, and the escalation cutoff in
HybridComplianceChecker.check_url). -/
def visualConfidenceThreshold : Rat := mkRat 85 100

/-- TemplateManager.should_skip_visual_verification: true iff a cached
decision exists and rule_status.get("confidence", 0) is at least the
threshold. -/
def should_skip_visual_verification (db : ComplianceDatabase)
    (tid rule : String) (threshold : Rat) : Bool :=
  match get_rule_status db tid rule with
  | none => false
  | some rs => decide (threshold ≤ rs.confidence)

/-- TemplateManager.update_rule_status: ensure a templates row exists
(creating one with platform "unknown" when missing), then upsert the rule
decision. -/
def update_rule_status (db : ComplianceDatabase) (tid rule status : String)
    (confidence : Rat) (vm notes : String) : ComplianceDatabase :=
  (match db.get_template tid with
   | none => db.save_template tid "unknown"
   | some _ => db).save_template_rule tid rule status confidence
    (some vm) (some notes)

/-! ## Violations and escalation selection
(src/server/core/main_hybrid.py, step 4 of check_url) -/

/-- A violation dictionary as produced by the Text Compliance Analyzer.
Fields a dictionary may omit are Option; the getters below apply the
defaults the source uses with .get. -/
structure Violation where
  ruleKey : Option String
  ruleViolated : Option String
  needsVisualVerification : Option Bool
  confidence : Option Rat
deriving Repr, DecidableEq

/-- v.get("rule_key", ""). -/
def Violation.getRuleKey (v : Violation) : String := v.ruleKey.getD ""

/-- v.get("rule_violated", ""). -/
def Violation.getRuleViolated (v : Violation) : String := v.ruleViolated.getD ""

/-- v.get("needs_visual_verification", False). -/
def Violation.getNeedsVisual (v : Violation) : Bool :=
  v.needsVisualVerification.getD false

/-- v.get("confidence", 1.0). -/
def Violation.getConfidence (v : Violation) : Rat := v.confidence.getD 1

/-- The default escalation rule of check_url: keep violations with
needs_visual_verification true and confidence below 0.85. -/
def filterNeedsVisual (violations : List Violation) : List Violation :=
  violations.filter (fun v =>
    v.getNeedsVisual && decide (v.getConfidence < visualConfidenceThreshold))

/-- The synthetic contact-information verification task check_url appends
for homepages. -/
def homepageContactViolation : Violation where
  ruleKey := some "homepage_contact_visibility"
  ruleViolated := some "Physical address, phone number, and business hours must be conspicuous and easily accessible"
  needsVisualVerification := some true
  confidence := none

/-- The needs_visual list check_url builds: the default filter, plus the
synthetic contact-visibility task when the page is a homepage and the
filter selected nothing. -/
def selectForEscalation (urlType : String) (violations : List Violation) :
    List Violation :=
  let needsVisual := filterNeedsVisual violations
  if pyUpper urlType == "HOMEPAGE" && needsVisual.isEmpty then
    needsVisual ++ [homepageContactViolation]
  else
    needsVisual

/-! ## Visual verification loop and aggregation
(src/server/core/main_hybrid.py, steps 4 and token accounting) -/

/-- The dictionary VisualComplianceAnalyzer.capture_and_verify returns: the
parsed multimodal judgment plus tokens_used (verification_method "visual"
and the screenshot path are set by the analyzer; the latter is outside the
model). -/
structure VisResult where
  isCompliant : Bool
  confidence : Rat
  visualEvidence : Option String
  tokensUsed : Nat
deriving Repr, DecidableEq

/-- An entry of the visual_verifications list of the result.  Cached
entries and fresh verifier results carry different key sets, so every field
the two shapes do not share is Option. -/
structure VisualVerification where
  ruleKey : Option String
  rule : Option String
  cached : Option Bool
  isCompliant : Bool
  confidence : Rat
  verificationMethod : String
  notes : Option String
  visualEvidence : Option String
  tokensUsed : Option Nat
deriving Repr, DecidableEq

/-- The dictionary check_url appends on a cache hit.  Note that
cached.get("notes", "") returns the stored notes value even when it is
NULL, because the key is always present in the get_rule_status dictionary. -/
def cachedVerification (rk ruleText : String) (rs : RuleStatus) :
    VisualVerification where
  ruleKey := some rk
  rule := some ruleText
  cached := some true
  isCompliant := rs.status == "compliant"
  confidence := rs.confidence
  verificationMethod := "cached"
  notes := rs.notes
  visualEvidence := none
  tokensUsed := none

/-- The entry check_url appends on a cache miss: the capture_and_verify
result itself, which has no rule_key and no cached key. -/
def freshVerification (vr : VisResult) : VisualVerification where
  ruleKey := none
  rule := none
  cached := none
  isCompliant := vr.isCompliant
  confidence := vr.confidence
  verificationMethod := "visual"
  notes := none
  visualEvidence := vr.visualEvidence
  tokensUsed := some vr.tokensUsed

/-- The external effects of the visual phase.  verify is the
capture_and_verify call (screenshot plus multimodal model), indexed by the
rule key and rule text of the violation; an Except.error is a raised
exception.  cacheWriteError models the SQLite layer during the
update_rule_status call: some e means the write raises e instead of
performing the pure update. -/
structure CheckEnv where
  verify : String → String → Except String VisResult
  cacheWriteError : String → String → Option String

/-- The outcome of the per-violation loop: the visual_verifications list,
the database after the cache writes, and the trace of rule keys for which
the Visual Verifier (capture_and_verify) was actually invoked. -/
structure VisualLoopOutput where
  results : List VisualVerification
  db : ComplianceDatabase
  verifierCalls : List String
deriving Repr, DecidableEq

/-- The body of the for-loop over needs_visual in check_url, for one
violation: consult the cache first; on a hit produce the cached dictionary
without touching the database or the verifier; on a miss invoke the
verifier and upsert the cache.  The result carries the appended entry, the
database afterwards, and whether capture_and_verify was invoked.  (The
source appends the entry before the cache upsert, but when the upsert
raises the whole check raises and the local list is discarded, so the
error-first order here is observably the same.) -/
def visualStep (env : CheckEnv) (templateId : String)
    (db : ComplianceDatabase) (v : Violation) :
    Except String (VisualVerification × ComplianceDatabase × Bool) :=
  if should_skip_visual_verification db templateId v.getRuleKey
      visualConfidenceThreshold then
    match get_rule_status db templateId v.getRuleKey with
    | none =>
      -- unreachable: should_skip true implies a cached decision exists
      .error "TypeError: NoneType is not subscriptable"
    | some rs =>
      .ok (cachedVerification v.getRuleKey v.getRuleViolated rs, db, false)
  else
    match env.verify v.getRuleKey v.getRuleViolated with
    | .error e => .error e
    | .ok vr =>
      match env.cacheWriteError templateId v.getRuleKey with
      | some e => .error e
      | none =>
        .ok (freshVerification vr,
             update_rule_status db templateId v.getRuleKey
               (if vr.isCompliant then "compliant" else "non_compliant")
               vr.confidence "visual" (vr.visualEvidence.getD ""),
             true)

/-- The for-loop over needs_visual in check_url: run visualStep on each
escalated violation in order, threading the database.  Any exception
(verifier failure, cache write failure) propagates: check_url has no
handler and re-raises. -/
def runVisualLoop (env : CheckEnv) (templateId : String) :
    ComplianceDatabase → List Violation → Except String VisualLoopOutput
  | db, [] => .ok ⟨[], db, []⟩
  | db, v :: rest =>
    match visualStep env templateId db v with
    | .error e => .error e
    | .ok (entry, db2, called) =>
      match runVisualLoop env templateId db2 rest with
      | .error e => .error e
      | .ok out =>
        .ok ⟨entry :: out.results, out.db,
             (if called then [v.getRuleKey] else []) ++ out.verifierCalls⟩

/-- The text-analysis result fields the visual phase reads. -/
structure TextResult where
  violations : List Violation
  tokensUsed : Option Nat
deriving Repr, DecidableEq

/-- The aggregated ComplianceResult fields check_url sets in step 4 and
the token-accounting step. -/
structure ComplianceResult where
  violations : List Violation
  visualVerifications : List VisualVerification
  templateId : String
  textAnalysisTokens : Nat
  visualTokens : Nat
  totalTokens : Nat
deriving Repr, DecidableEq

/-- A completed check together with the final database state and the
verifier-call trace. -/
structure CheckOutcome where
  result : ComplianceResult
  db : ComplianceDatabase
  verifierCalls : List String
deriving Repr, DecidableEq

/-- sum(v.get("tokens_used", 0) for v in visual_results). -/
def sumVisualTokens (vs : List VisualVerification) : Nat :=
  (vs.map (fun v => v.tokensUsed.getD 0)).sum

/-- Steps 4 and the aggregation of HybridComplianceChecker.check_url,
after text analysis: the visual branch runs when skip_visual is false or
the page is a homepage; inside it the escalation set is selected and the
per-violation loop runs; aggregation then merges the visual results and
sums token usage. -/
def check_url (env : CheckEnv) (db : ComplianceDatabase)
    (templateId urlType : String) (skipVisual : Bool)
    (textResult : TextResult) : Except String CheckOutcome :=
  match (if !skipVisual || pyUpper urlType == "HOMEPAGE" then
           runVisualLoop env templateId db
             (selectForEscalation urlType textResult.violations)
         else
           .ok ⟨[], db, []⟩) with
  | .error e => .error e
  | .ok out =>
    .ok ⟨{ violations := textResult.violations,
           visualVerifications := out.results,
           templateId := templateId,
           textAnalysisTokens := textResult.tokensUsed.getD 0,
           visualTokens := sumVisualTokens out.results,
           totalTokens := textResult.tokensUsed.getD 0
             + sumVisualTokens out.results },
         out.db, out.verifierCalls⟩

/-! ## Extraction templates (src/server/core/extraction_templates.py) -/

/-- The cleanup_rules dictionary of an extraction template. -/
structure CleanupRules where
  removeSelectors : List String
  keepOnlyMainContent : Bool
  removeDuplicateText : Bool
deriving Repr, DecidableEq

/-- A stored extraction-template configuration (the row
ComplianceDatabase.get_extraction_template returns, which _load_template
repacks unchanged). -/
structure ExtractionTemplateRow where
  templateId : String
  platform : String
  selectors : List (String × String)
  cleanupRules : CleanupRules
  extractionOrder : List String
deriving Repr, DecidableEq

/-- The extraction_templates table. -/
structure ExtractionStore where
  rows : List ExtractionTemplateRow
deriving Repr, DecidableEq

/-- ComplianceDatabase.get_extraction_template / _load_template: fetch a
stored configuration by id. -/
def ExtractionStore.load_template (store : ExtractionStore) (tid : String) :
    Option ExtractionTemplateRow :=
  store.rows.find? (fun r => r.templateId == tid)

/-- The ExtractionTemplate class: constructed from a configuration
dictionary, keeping its fields. -/
structure ExtractionTemplate where
  templateId : String
  platform : String
  selectors : List (String × String)
  cleanupRules : CleanupRules
  extractionOrder : List String
deriving Repr, DecidableEq

/-- ExtractionTemplate(config) for a loaded configuration. -/
def ExtractionTemplate.ofRow (r : ExtractionTemplateRow) : ExtractionTemplate :=
  ⟨r.templateId, r.platform, r.selectors, r.cleanupRules, r.extractionOrder⟩

/-- urlparse(url).netloc: the authority component between the double slash
and the next slash, question mark or hash. -/
def urlNetloc (url : String) : String :=
  match afterDoubleSlash url.data with
  | none => ""
  | some r =>
    ⟨r.takeWhile (fun c => !(c == '/' || c == '?' || c == '#'))⟩

/-- urlparse(url).netloc.replace("www.", "") as in get_template. -/
def normalizedDomain (url : String) : String :=
  ⟨removeWwwList (urlNetloc url).data⟩

/-- The per-URL override template id: url_ followed by the normalized
domain with dots replaced by underscores. -/
def urlTemplateId (url : String) : String :=
  "url_" ++ replaceChar '.' '_' (normalizedDomain url)

/-- The per-page-type default template id. -/
def typeTemplateId (urlType : String) : String :=
  pyLower urlType ++ "_default"

/-- The per-platform default template id. -/
def platformTemplateId (platform : String) : String :=
  replaceChar ' ' '_' (pyLower platform) ++ "_vdp"

/-- ExtractionTemplateManager.get_template: the five-tier override
hierarchy, first existing template fully replacing the search.  Reaching a
missing generic fallback constructs ExtractionTemplate(None), which raises
AttributeError; this is the .error branch. -/
def ExtractionStore.get_template (store : ExtractionStore) (url : String)
    (platform : Option String) (template_override : Option String)
    (url_type : String) : Except String ExtractionTemplate :=
  match (if pyTruthy template_override then
           store.load_template (template_override.getD "")
         else none) with
  | some c => .ok (ExtractionTemplate.ofRow c)
  | none =>
    match store.load_template (urlTemplateId url) with
    | some c => .ok (ExtractionTemplate.ofRow c)
    | none =>
      match (if !url_type.isEmpty then
               store.load_template (typeTemplateId url_type)
             else none) with
      | some c => .ok (ExtractionTemplate.ofRow c)
      | none =>
        match (if pyTruthy platform && (platform.getD "" != "unknown") then
                 store.load_template (platformTemplateId (platform.getD ""))
               else none) with
        | some c => .ok (ExtractionTemplate.ofRow c)
        | none =>
          match store.load_template "generic_fallback" with
          | some c => .ok (ExtractionTemplate.ofRow c)
          | none =>
            .error "AttributeError: NoneType object has no attribute get"

/-! ## ExtractionTemplate.extract -/

/-- What querying the live page with one CSS selector can do: raise (the
query or inner_text call fails), match nothing, or return the inner text of
the first matching element. -/
inductive SelectorOutcome where
  | err
  | missing
  | found (text : String)
deriving Repr, DecidableEq

/-- A page is, for extraction purposes, its response to each selector. -/
structure Page where
  query : String → SelectorOutcome

/-- The inner for-loop of extract over the comma-separated selector list:
the first selector whose element exists supplies the content; a raised
exception escapes to the per-section handler. -/
def firstSelectorContent (page : Page) :
    List String → Except Unit (Option String)
  | [] => .ok none
  | s :: rest =>
    match page.query s with
    | .err => .error ()
    | .missing => firstSelectorContent page rest
    | .found t => .ok (some t)

/-- self.selectors.get(section_name). -/
def lookupSelector (selectors : List (String × String)) (sec : String) :
    Option String :=
  (selectors.find? (fun p => p.1 == sec)).map (fun p => p.2)

/-- The comma-splitting of a selector string:
[s.strip() for s in selector.split(",")]. -/
def splitSelectors (selectorStr : String) : List String :=
  (pySplitChar ',' selectorStr).map pyStrip

/-- The per-section body of extract, as an independent function of one
section: None when the section has no truthy selector entry, when every
selector misses, when the first match has falsy (empty) text, or when the
attempt raises (the except branch); otherwise the stripped content. -/
def sectionResult (tpl : ExtractionTemplate) (page : Page)
    (sec : String) : Option String :=
  match lookupSelector tpl.selectors sec with
  | none => none
  | some sel =>
    if sel.isEmpty then none
    else
      match firstSelectorContent page (splitSelectors sel) with
      | .error _ => none
      | .ok none => none
      | .ok (some t) => if t.isEmpty then none else some (pyStrip t)

/-- The extraction loop of ExtractionTemplate.extract, translated
statement by statement: iterate extraction_order, skip sections without a
truthy selector, try the comma-separated selectors in order, catch any
exception and continue with the next section, and record content only when
it is truthy. -/
def extractLoop (tpl : ExtractionTemplate) (page : Page) :
    List String → List (String × String)
  | [] => []
  | sec :: rest =>
    match lookupSelector tpl.selectors sec with
    | none => extractLoop tpl page rest
    | some sel =>
      if sel.isEmpty then extractLoop tpl page rest
      else
        match firstSelectorContent page (splitSelectors sel) with
        | .error _ => extractLoop tpl page rest
        | .ok none => extractLoop tpl page rest
        | .ok (some t) =>
          if t.isEmpty then extractLoop tpl page rest
          else (sec, pyStrip t) :: extractLoop tpl page rest

/-- ExtractionTemplate.extract: the ordered section-name to text mapping. -/
def ExtractionTemplate.extract (tpl : ExtractionTemplate) (page : Page) :
    List (String × String) :=
  extractLoop tpl page tpl.extractionOrder

/-! ## Concrete fixtures

Small concrete stores, violations and environments used to instantiate the
theorems below on closed inputs. -/

/-- A fresh database with no cached decisions. -/
def dbEmpty : ComplianceDatabase := ⟨[], []⟩

/-- A database holding one cached high-confidence compliant decision for
the pair (tpl_a, rule_r). -/
def dbCached : ComplianceDatabase :=
  ⟨[⟨"tpl_a", "dealer.com"⟩],
   [⟨"tpl_a", "rule_r", "compliant", mkRat 9 10, some "visual",
     some "seen before"⟩]⟩

/-- A violation that qualifies for escalation: needs visual verification at
confidence 0.6. -/
def violLow : Violation :=
  ⟨some "rule_r", some "rule text r", some true, some (mkRat 6 10)⟩

/-- The first violation of the escalation example: confidence 0.6, needs
visual verification. -/
def exampleViolationA : Violation := ⟨none, none, some true, some (mkRat 6 10)⟩

/-- The second violation of the escalation example: confidence 0.95, needs
visual verification. -/
def exampleViolationB : Violation := ⟨none, none, some true, some (mkRat 95 100)⟩

/-- The third violation of the escalation example: confidence 0.3, no
visual verification requested. -/
def exampleViolationC : Violation := ⟨none, none, some false, some (mkRat 3 10)⟩

/-- An environment whose verifier always succeeds (compliant at 0.9, 120
tokens) and whose cache writes succeed. -/
def envOk : CheckEnv :=
  ⟨fun _ _ => .ok ⟨true, mkRat 9 10, some "evidence", 120⟩, fun _ _ => none⟩

/-- An environment whose verifier succeeds but whose cache writes raise. -/
def envWriteFail : CheckEnv :=
  ⟨fun _ _ => .ok ⟨true, mkRat 9 10, some "evidence", 120⟩,
   fun _ _ => some "sqlite3.OperationalError: unable to open database file"⟩

/-- A text result with no violations and 50 tokens used. -/
def textNone : TextResult := ⟨[], some 50⟩

/-- A text result with one escalating violation and 50 tokens used. -/
def textViol : TextResult := ⟨[violLow], some 50⟩

/-- The outcome of the homepage run with skip_visual true on an empty
cache: the forced contact check is verified fresh and written back. -/
def outHomeSkip : CheckOutcome :=
  ⟨{ violations := [],
     visualVerifications :=
       [⟨none, none, none, true, mkRat 9 10, "visual", none, some "evidence",
         some 120⟩],
     templateId := "tpl_a",
     textAnalysisTokens := 50,
     visualTokens := 120,
     totalTokens := 170 },
   ⟨[⟨"tpl_a", "unknown"⟩],
    [⟨"tpl_a", "homepage_contact_visibility", "compliant", mkRat 9 10,
      some "visual", some "evidence"⟩]⟩,
   ["homepage_contact_visibility"]⟩

/-- The outcome of a VDP run against the cached decision: the cached entry
is reused, the store is untouched and the verifier is never called. -/
def outCachedRun : CheckOutcome :=
  ⟨{ violations := [violLow],
     visualVerifications :=
       [⟨some "rule_r", some "rule text r", some true, true, mkRat 9 10,
         "cached", some "seen before", none, none⟩],
     templateId := "tpl_a",
     textAnalysisTokens := 50,
     visualTokens := 0,
     totalTokens := 50 },
   dbCached,
   []⟩

/-- The outcome of a VDP run with skip_visual true: text-only. -/
def outSkipVdp : CheckOutcome :=
  ⟨{ violations := [],
     visualVerifications := [],
     templateId := "tpl_a",
     textAnalysisTokens := 50,
     visualTokens := 0,
     totalTokens := 50 },
   dbEmpty,
   []⟩

/-- An extraction-template row with a given id (the selector payload is
irrelevant to resolution). -/
def rowFor (tid : String) : ExtractionTemplateRow :=
  ⟨tid, "fixture", [], ⟨[], false, false⟩, []⟩

/-- A store holding a template for every tier of the resolution
hierarchy. -/
def storeAll : ExtractionStore :=
  ⟨[rowFor "ovr_tpl", rowFor "url_example_com", rowFor "vdp_default",
    rowFor "inventory_default", rowFor "cars_vdp",
    rowFor "generic_fallback"]⟩

/-- A store with no templates at all (the generic fallback is missing). -/
def storeEmpty : ExtractionStore := ⟨[]⟩

/-- A concrete URL whose normalized domain is example.com. -/
def urlW : String := "https://www.example.com/vehicle"

/-- A concrete extraction template: two sections with selectors, one
section without. -/
def tplFix : ExtractionTemplate :=
  ⟨"fix", "fixture", [("price", "a1, a2"), ("vin", "b1")],
   ⟨[], false, false⟩, ["price", "vin", "missing"]⟩

/-- A concrete page: the first price selector matches nothing, the second
yields padded text, and the vin selector raises. -/
def pageFix : Page :=
  ⟨fun s =>
    if s == "a1" then .missing
    else if s == "a2" then .found "  12000 USD "
    else if s == "b1" then .err
    else .missing⟩

/-! ## Shared lemmas about the store -/

theorem ruleKeyMatches_iff {tid rk : String} {e : TemplateRuleRecord} :
    ruleKeyMatches tid rk e = true ↔ e.templateId = tid ∧ e.ruleKey = rk := by
  simp [ruleKeyMatches]

/-- Overwriting the decision fields never changes which cache keys a row
matches. -/
theorem ruleKeyMatches_updateRuleIf (tid rk tid' rk' status : String)
    (conf : Rat) (vm notes : Option String) (e : TemplateRuleRecord) :
    ruleKeyMatches tid' rk' (updateRuleIf tid rk status conf vm notes e)
      = ruleKeyMatches tid' rk' e := by
  unfold updateRuleIf
  split <;> rfl

/-- Finding under the conflict key after the DO UPDATE pass yields the new
row exactly when a row was there. -/
theorem find?_map_updateRuleIf_self (tid rk status : String) (conf : Rat)
    (vm notes : Option String) (l : List TemplateRuleRecord) :
    (l.map (updateRuleIf tid rk status conf vm notes)).find?
        (ruleKeyMatches tid rk)
      = (l.find? (ruleKeyMatches tid rk)).map
          (fun _ => ⟨tid, rk, status, conf, vm, notes⟩) := by
  induction l with
  | nil => rfl
  | cons e l ih =>
    by_cases h : ruleKeyMatches tid rk e = true
    · have h2 : ruleKeyMatches tid rk
          (updateRuleIf tid rk status conf vm notes e) = true := by
        rw [ruleKeyMatches_updateRuleIf]; exact h
      rw [List.map_cons, List.find?_cons_of_pos _ h2,
        List.find?_cons_of_pos _ h]
      obtain ⟨h3, h4⟩ := ruleKeyMatches_iff.mp h
      simp [updateRuleIf, h, h3, h4]
    · have h2 : ¬ ruleKeyMatches tid rk
          (updateRuleIf tid rk status conf vm notes e) = true := by
        rw [ruleKeyMatches_updateRuleIf]; exact h
      rw [List.map_cons, List.find?_cons_of_neg _ h2,
        List.find?_cons_of_neg _ h, ih]

/-- The DO UPDATE pass for one cache key leaves every other cache key's
lookup unchanged. -/
theorem find?_map_updateRuleIf_ne (tid rk tid' rk' status : String)
    (conf : Rat) (vm notes : Option String) (l : List TemplateRuleRecord)
    (h : ¬(tid' = tid ∧ rk' = rk)) :
    (l.map (updateRuleIf tid rk status conf vm notes)).find?
        (ruleKeyMatches tid' rk')
      = l.find? (ruleKeyMatches tid' rk') := by
  induction l with
  | nil => rfl
  | cons e l ih =>
    by_cases hm : ruleKeyMatches tid' rk' e = true
    · have hm2 : ruleKeyMatches tid' rk'
          (updateRuleIf tid rk status conf vm notes e) = true := by
        rw [ruleKeyMatches_updateRuleIf]; exact hm
      rw [List.map_cons, List.find?_cons_of_pos _ hm2,
        List.find?_cons_of_pos _ hm]
      obtain ⟨h3, h4⟩ := ruleKeyMatches_iff.mp hm
      have hne : ¬ ruleKeyMatches tid rk e = true := by
        intro hc
        obtain ⟨h5, h6⟩ := ruleKeyMatches_iff.mp hc
        exact h ⟨h3 ▸ h5 ▸ rfl, h4 ▸ h6 ▸ rfl⟩
      simp [updateRuleIf, hne]
    · have hm2 : ¬ ruleKeyMatches tid' rk'
          (updateRuleIf tid rk status conf vm notes e) = true := by
        rw [ruleKeyMatches_updateRuleIf]; exact hm
      rw [List.map_cons, List.find?_cons_of_neg _ hm2,
        List.find?_cons_of_neg _ hm, ih]

/-- The DO UPDATE pass preserves the number of rows under the conflict
key. -/
theorem length_filter_map_updateRuleIf (tid rk status : String) (conf : Rat)
    (vm notes : Option String) (l : List TemplateRuleRecord) :
    ((l.map (updateRuleIf tid rk status conf vm notes)).filter
        (ruleKeyMatches tid rk)).length
      = (l.filter (ruleKeyMatches tid rk)).length := by
  rw [List.filter_map]
  have : (ruleKeyMatches tid rk ∘ updateRuleIf tid rk status conf vm notes)
      = ruleKeyMatches tid rk := by
    funext e
    exact ruleKeyMatches_updateRuleIf tid rk tid rk status conf vm notes e
  rw [this, List.length_map]

/-- An upsert leaves exactly the written decision under its key. -/
theorem get_template_rule_save_self (db : ComplianceDatabase)
    (tid rk s : String) (c : Rat) (vm n : Option String) :
    (db.save_template_rule tid rk s c vm n).get_template_rule tid rk
      = some ⟨tid, rk, s, c, vm, n⟩ := by
  unfold ComplianceDatabase.save_template_rule
    ComplianceDatabase.get_template_rule
  split
  · next hany =>
    rw [find?_map_updateRuleIf_self]
    obtain ⟨x, hx, hpx⟩ := List.any_eq_true.mp hany
    have hsome : (db.templateRules.find? (ruleKeyMatches tid rk)).isSome :=
      List.find?_isSome.mpr ⟨x, hx, hpx⟩
    cases hf : db.templateRules.find? (ruleKeyMatches tid rk) with
    | none => rw [hf] at hsome; simp at hsome
    | some y => rfl
  · next hany =>
    have hnone : db.templateRules.find? (ruleKeyMatches tid rk) = none := by
      rw [List.find?_eq_none]
      intro x hx hpx
      exact hany (List.any_eq_true.mpr ⟨x, hx, hpx⟩)
    rw [List.find?_append, hnone]
    simp [ruleKeyMatches]

/-- An upsert under one key does not change the lookup of any other key. -/
theorem get_template_rule_save_ne (db : ComplianceDatabase)
    (tid rk s : String) (c : Rat) (vm n : Option String)
    (tid' rk' : String) (h : ¬(tid' = tid ∧ rk' = rk)) :
    (db.save_template_rule tid rk s c vm n).get_template_rule tid' rk'
      = db.get_template_rule tid' rk' := by
  unfold ComplianceDatabase.save_template_rule
    ComplianceDatabase.get_template_rule
  split
  · exact find?_map_updateRuleIf_ne tid rk tid' rk' s c vm n _ h
  · rw [List.find?_append]
    have : List.find? (ruleKeyMatches tid' rk')
        [(⟨tid, rk, s, c, vm, n⟩ : TemplateRuleRecord)] = none := by
      rw [List.find?_eq_none]
      intro x hx hpx
      simp at hx
      subst hx
      obtain ⟨h5, h6⟩ := ruleKeyMatches_iff.mp hpx
      exact h ⟨h5.symm, h6.symm⟩
    rw [this]
    cases db.templateRules.find? (ruleKeyMatches tid' rk') <;> rfl

/-- An upsert leaves exactly one row under its key whenever the key
uniqueness invariant held before. -/
theorem ruleEntryCount_save_self (db : ComplianceDatabase)
    (tid rk s : String) (c : Rat) (vm n : Option String)
    (h : ruleEntryCount db tid rk ≤ 1) :
    ruleEntryCount (db.save_template_rule tid rk s c vm n) tid rk = 1 := by
  unfold ComplianceDatabase.save_template_rule
  unfold ruleEntryCount at *
  split
  · next hany =>
    show ((db.templateRules.map _).filter _).length = 1
    rw [length_filter_map_updateRuleIf]
    obtain ⟨x, hx, hpx⟩ := List.any_eq_true.mp hany
    have hmem : x ∈ db.templateRules.filter (ruleKeyMatches tid rk) :=
      List.mem_filter.mpr ⟨hx, hpx⟩
    have hpos : 0 < (db.templateRules.filter (ruleKeyMatches tid rk)).length :=
      List.length_pos.mpr (fun hnil => by rw [hnil] at hmem; cases hmem)
    omega
  · next hany =>
    have hnil : db.templateRules.filter (ruleKeyMatches tid rk) = [] := by
      rw [List.filter_eq_nil_iff]
      intro x hx hpx
      exact hany (List.any_eq_true.mpr ⟨x, hx, hpx⟩)
    show ((db.templateRules ++ _).filter _).length = 1
    rw [List.filter_append, hnil]
    simp [ruleKeyMatches]

/-- save_template_rule does not touch the templates table. -/
theorem get_template_save_rule (db : ComplianceDatabase)
    (tid rk s : String) (c : Rat) (vm n : Option String) (tid' : String) :
    (db.save_template_rule tid rk s c vm n).get_template tid'
      = db.get_template tid' := by
  unfold ComplianceDatabase.save_template_rule
  split <;> rfl

/-- After save_template the stored record under the id is exactly the
written one (the platform is overwritten on conflict). -/
theorem templateIdMatches_updatePlatformIf (tid platform : String)
    (t : TemplateRecord) :
    templateIdMatches tid (updatePlatformIf tid platform t)
      = templateIdMatches tid t := by
  unfold updatePlatformIf
  split <;> rfl

theorem find?_map_updatePlatformIf (tid platform : String)
    (l : List TemplateRecord) :
    (l.map (updatePlatformIf tid platform)).find? (templateIdMatches tid)
      = (l.find? (templateIdMatches tid)).map (fun _ => ⟨tid, platform⟩) := by
  induction l with
  | nil => rfl
  | cons t l ih =>
    by_cases ht : templateIdMatches tid t = true
    · have ht2 : templateIdMatches tid (updatePlatformIf tid platform t)
          = true := by
        rw [templateIdMatches_updatePlatformIf]; exact ht
      rw [List.map_cons, List.find?_cons_of_pos _ ht2,
        List.find?_cons_of_pos _ ht]
      have ht3 : t.templateId = tid := by
        simpa [templateIdMatches] using ht
      simp [updatePlatformIf, templateIdMatches, ht3]
    · have ht2 : ¬ templateIdMatches tid (updatePlatformIf tid platform t)
          = true := by
        rw [templateIdMatches_updatePlatformIf]; exact ht
      rw [List.map_cons, List.find?_cons_of_neg _ ht2,
        List.find?_cons_of_neg _ ht, ih]

theorem get_template_save_self (db : ComplianceDatabase)
    (tid platform : String) :
    (db.save_template tid platform).get_template tid
      = some ⟨tid, platform⟩ := by
  unfold ComplianceDatabase.save_template ComplianceDatabase.get_template
  split
  · next hany =>
    show (db.templates.map _).find? _ = _
    rw [find?_map_updatePlatformIf]
    obtain ⟨x, hx, hpx⟩ := List.any_eq_true.mp hany
    have hsome : (db.templates.find? (templateIdMatches tid)).isSome :=
      List.find?_isSome.mpr ⟨x, hx, hpx⟩
    cases hf : db.templates.find? (templateIdMatches tid) with
    | none => rw [hf] at hsome; simp at hsome
    | some y => rfl
  · next hany =>
    have hnone : db.templates.find? (templateIdMatches tid) = none := by
      rw [List.find?_eq_none]
      intro x hx hpx
      exact hany (List.any_eq_true.mpr ⟨x, hx, hpx⟩)
    rw [List.find?_append, hnone]
    simp [templateIdMatches]

/-! ## Shared lemmas about the manager layer and the visual loop -/

/-- save_template does not touch the template_rules table. -/
theorem get_template_rule_save_template (db : ComplianceDatabase)
    (tid platform tid' rk' : String) :
    (db.save_template tid platform).get_template_rule tid' rk'
      = db.get_template_rule tid' rk' := by
  unfold ComplianceDatabase.save_template
  split <;> rfl

/-- should_skip_visual_verification holds exactly when a cached decision
exists with confidence at least the threshold. -/
theorem should_skip_iff (db : ComplianceDatabase) (tid rule : String)
    (threshold : Rat) :
    should_skip_visual_verification db tid rule threshold = true
      ↔ ∃ rs, get_rule_status db tid rule = some rs
          ∧ threshold ≤ rs.confidence := by
  unfold should_skip_visual_verification
  cases h : get_rule_status db tid rule with
  | none => simp [h]
  | some rs => simp [h]

/-- update_rule_status under one (template id, rule key) pair leaves every
other pair's cached decision unchanged. -/
theorem get_rule_status_update_ne (db : ComplianceDatabase)
    (tid rule status : String) (c : Rat) (vm n : String)
    (tid' rule' : String) (h : ¬(tid' = tid ∧ rule' = rule)) :
    get_rule_status (update_rule_status db tid rule status c vm n) tid' rule'
      = get_rule_status db tid' rule' := by
  unfold update_rule_status get_rule_status
  cases hg : db.get_template tid with
  | none =>
    rw [get_template_rule_save_ne _ _ _ _ _ _ _ _ _ h,
      get_template_rule_save_template]
  | some t =>
    rw [get_template_rule_save_ne _ _ _ _ _ _ _ _ _ h]

/-- update_rule_status stores exactly the written decision under its own
pair. -/
theorem get_rule_status_update_self (db : ComplianceDatabase)
    (tid rule status : String) (c : Rat) (vm n : String) :
    get_rule_status (update_rule_status db tid rule status c vm n) tid rule
      = some ⟨status, c, some vm, some n⟩ := by
  unfold update_rule_status get_rule_status
  cases hg : db.get_template tid <;>
    rw [get_template_rule_save_self] <;> rfl

/-- visualStep on a cache hit: the cached entry is produced, the database
is untouched and the verifier is not invoked. -/
theorem visualStep_hit (env : CheckEnv) (tid : String)
    (db : ComplianceDatabase) (v : Violation) (rs : RuleStatus)
    (hskip : should_skip_visual_verification db tid v.getRuleKey
      visualConfidenceThreshold = true)
    (hrs : get_rule_status db tid v.getRuleKey = some rs) :
    visualStep env tid db v
      = .ok (cachedVerification v.getRuleKey v.getRuleViolated rs, db,
             false) := by
  unfold visualStep
  rw [if_pos hskip, hrs]

/-- visualStep on a cache miss with a successful verifier call and cache
write: the fresh entry is produced and the decision is upserted. -/
theorem visualStep_miss (env : CheckEnv) (tid : String)
    (db : ComplianceDatabase) (v : Violation) (vr : VisResult)
    (hskip : should_skip_visual_verification db tid v.getRuleKey
      visualConfidenceThreshold = false)
    (hver : env.verify v.getRuleKey v.getRuleViolated = .ok vr)
    (hcw : env.cacheWriteError tid v.getRuleKey = none) :
    visualStep env tid db v
      = .ok (freshVerification vr,
             update_rule_status db tid v.getRuleKey
               (if vr.isCompliant then "compliant" else "non_compliant")
               vr.confidence "visual" (vr.visualEvidence.getD ""),
             true) := by
  unfold visualStep
  rw [if_neg (by simp [hskip]), hver, hcw]

/-- visualStep on a cache miss when the cache write raises: the exception
propagates. -/
theorem visualStep_writeFailure (env : CheckEnv) (tid : String)
    (db : ComplianceDatabase) (v : Violation) (vr : VisResult) (e : String)
    (hskip : should_skip_visual_verification db tid v.getRuleKey
      visualConfidenceThreshold = false)
    (hver : env.verify v.getRuleKey v.getRuleViolated = .ok vr)
    (hcw : env.cacheWriteError tid v.getRuleKey = some e) :
    visualStep env tid db v = .error e := by
  unfold visualStep
  rw [if_neg (by simp [hskip]), hver, hcw]

/-- visualStep never invokes the verifier on a pair that skips, and only
writes to the pair it processes: every other cached decision survives a
successful step, and a pair that skipped keeps skipping. -/
theorem visualStep_preserves (env : CheckEnv) (tid r : String)
    (db : ComplianceDatabase) (v : Violation) (entry : VisualVerification)
    (db2 : ComplianceDatabase) (called : Bool)
    (hskip : should_skip_visual_verification db tid r
      visualConfidenceThreshold = true)
    (hstep : visualStep env tid db v = .ok (entry, db2, called)) :
    get_rule_status db2 tid r = get_rule_status db tid r
      ∧ (called = true → v.getRuleKey ≠ r)
      ∧ (v.getRuleKey = r →
          ∃ rs, get_rule_status db tid r = some rs
            ∧ entry = cachedVerification r v.getRuleViolated rs) := by
  unfold visualStep at hstep
  by_cases hv : should_skip_visual_verification db tid v.getRuleKey
      visualConfidenceThreshold = true
  · rw [if_pos hv] at hstep
    cases hrs : get_rule_status db tid v.getRuleKey with
    | none => rw [hrs] at hstep; cases hstep
    | some rs =>
      rw [hrs] at hstep
      cases hstep
      refine ⟨rfl, by simp, ?_⟩
      intro hkey
      subst hkey
      exact ⟨rs, hrs, rfl⟩
  · rw [if_neg hv] at hstep
    have hkne : v.getRuleKey ≠ r := fun hkey => hv (hkey ▸ hskip)
    cases hver : env.verify v.getRuleKey v.getRuleViolated with
    | error e => rw [hver] at hstep; cases hstep
    | ok vr =>
      rw [hver] at hstep
      cases hcw : env.cacheWriteError tid v.getRuleKey with
      | some e => rw [hcw] at hstep; cases hstep
      | none =>
        rw [hcw] at hstep
        cases hstep
        refine ⟨?_, fun _ => hkne, fun hkey => absurd hkey hkne⟩
        exact get_rule_status_update_ne db tid v.getRuleKey _ _ _ _ tid r
          (fun hc => hkne hc.2.symm)

/-- The visual loop invariant behind the cache-skip guarantee: when a pair
already skips at the start of the loop, the loop never writes to it (every
write targets a pair that did not skip at its own iteration), never invokes
the verifier for it, and answers every occurrence of the pair from the
cache entry present at the start. -/
theorem runVisualLoop_skip_frozen (env : CheckEnv) (tid r : String) :
    ∀ (items : List Violation) (db : ComplianceDatabase)
      (out : VisualLoopOutput),
      should_skip_visual_verification db tid r visualConfidenceThreshold
        = true →
      runVisualLoop env tid db items = .ok out →
      get_rule_status out.db tid r = get_rule_status db tid r
        ∧ r ∉ out.verifierCalls
        ∧ ∀ v ∈ items, v.getRuleKey = r →
            ∃ rs, get_rule_status db tid r = some rs
              ∧ cachedVerification r v.getRuleViolated rs ∈ out.results := by
  intro items
  induction items with
  | nil =>
    intro db out hskip hrun
    unfold runVisualLoop at hrun
    cases hrun
    exact ⟨rfl, by simp, by simp⟩
  | cons v rest ih =>
    intro db out hskip hrun
    unfold runVisualLoop at hrun
    cases hstep : visualStep env tid db v with
    | error e => rw [hstep] at hrun; cases hrun
    | ok stepOut =>
      obtain ⟨entry, db2, called⟩ := stepOut
      rw [hstep] at hrun
      dsimp only at hrun
      obtain ⟨hpres2, hcalled, hentry⟩ :=
        visualStep_preserves env tid r db v entry db2 called hskip hstep
      have hskip2 : should_skip_visual_verification db2 tid r
          visualConfidenceThreshold = true := by
        unfold should_skip_visual_verification at *
        rw [hpres2]
        exact hskip
      cases hrec : runVisualLoop env tid db2 rest with
      | error e => rw [hrec] at hrun; cases hrun
      | ok out' =>
        rw [hrec] at hrun
        cases hrun
        obtain ⟨hpres', hcalls, hmem⟩ := ih db2 out' hskip2 hrec
        refine ⟨by rw [hpres', hpres2], ?_, ?_⟩
        · intro hin
          rcases List.mem_append.mp hin with hin | hin
          · cases hc : called with
            | false => rw [hc] at hin; cases hin
            | true =>
              rw [hc] at hin
              simp only [if_pos] at hin
              rcases List.mem_singleton.mp hin with hin
              exact hcalled hc hin.symm
          · exact hcalls hin
        · intro w hw hkey
          rcases List.mem_cons.mp hw with hw | hw
          · subst hw
            obtain ⟨rs, hrs, hentryEq⟩ := hentry hkey
            refine ⟨rs, hrs, ?_⟩
            show cachedVerification r w.getRuleViolated rs
              ∈ entry :: out'.results
            rw [← hentryEq]
            exact List.mem_cons_self _ _
          · obtain ⟨rs, hrs, hin⟩ := hmem w hw hkey
            rw [hpres2] at hrs
            exact ⟨rs, hrs, List.mem_cons_of_mem _ hin⟩

/-- The visual loop produces exactly one verification entry per escalated
violation. -/
theorem runVisualLoop_length (env : CheckEnv) (tid : String) :
    ∀ (items : List Violation) (db : ComplianceDatabase)
      (out : VisualLoopOutput),
      runVisualLoop env tid db items = .ok out →
      out.results.length = items.length := by
  intro items
  induction items with
  | nil =>
    intro db out hrun
    unfold runVisualLoop at hrun
    cases hrun
    rfl
  | cons v rest ih =>
    intro db out hrun
    unfold runVisualLoop at hrun
    cases hstep : visualStep env tid db v with
    | error e => rw [hstep] at hrun; cases hrun
    | ok stepOut =>
      obtain ⟨entry, db2, called⟩ := stepOut
      rw [hstep] at hrun
      dsimp only at hrun
      cases hrec : runVisualLoop env tid db2 rest with
      | error e => rw [hrec] at hrun; cases hrun
      | ok out' =>
        rw [hrec] at hrun
        cases hrun
        simpa using ih db2 out' hrec

/-! ## Claim theorems -/

/-- C4: the default escalation selection includes exactly the violations
with needs_visual_verification true and confidence below 0.85; on the
example list with confidences 0.6 (needs visual), 0.95 (needs visual) and
0.3 (no visual), only the first is selected. -/
theorem escalation_default_rule :
    (∀ (vs : List Violation) (v : Violation),
        v ∈ filterNeedsVisual vs
          ↔ v ∈ vs ∧ v.getNeedsVisual = true
              ∧ v.getConfidence < visualConfidenceThreshold)
      ∧ filterNeedsVisual
          [exampleViolationA, exampleViolationB, exampleViolationC]
          = [exampleViolationA] := by
  constructor
  · intro vs v
    rw [filterNeedsVisual, List.mem_filter]
    simp [and_assoc]
  · decide

/-- C4 witness: the theorem applied to the example list selects the first
example violation. -/
theorem escalation_default_rule_witness :
    exampleViolationA ∈ filterNeedsVisual
      [exampleViolationA, exampleViolationB, exampleViolationC] :=
  (escalation_default_rule.1
    [exampleViolationA, exampleViolationB, exampleViolationC]
    exampleViolationA).mpr (by decide)

/-- C6: writing decision A then decision B under the same
(template id, rule key) leaves exactly one row under that key, whose
status, confidence, verification method and notes are those of B, and a
subsequent lookup of the key returns B.  The hypothesis is the UNIQUE
constraint of the template_rules schema on the starting store. -/
theorem cache_upsert_last_write_wins (db : ComplianceDatabase)
    (tid rk : String) (sA : String) (cA : Rat) (vmA nA : Option String)
    (sB : String) (cB : Rat) (vmB nB : Option String)
    (h : ruleEntryCount db tid rk ≤ 1) :
    ruleEntryCount
        ((db.save_template_rule tid rk sA cA vmA nA).save_template_rule
          tid rk sB cB vmB nB) tid rk = 1
      ∧ ((db.save_template_rule tid rk sA cA vmA nA).save_template_rule
          tid rk sB cB vmB nB).get_template_rule tid rk
          = some ⟨tid, rk, sB, cB, vmB, nB⟩ := by
  have h1 : ruleEntryCount (db.save_template_rule tid rk sA cA vmA nA)
      tid rk = 1 :=
    ruleEntryCount_save_self db tid rk sA cA vmA nA h
  exact ⟨ruleEntryCount_save_self _ tid rk sB cB vmB nB (by omega),
         get_template_rule_save_self _ tid rk sB cB vmB nB⟩

/-- C6 witness: the theorem applied to the empty store with two concrete
decisions for (tpl_a, rule_r). -/
theorem cache_upsert_last_write_wins_witness :
    ruleEntryCount
        ((dbEmpty.save_template_rule "tpl_a" "rule_r" "compliant" (mkRat 9 10)
            (some "visual") (some "first")).save_template_rule
          "tpl_a" "rule_r" "non_compliant" (mkRat 7 10) (some "visual")
          (some "second")) "tpl_a" "rule_r" = 1
      ∧ ((dbEmpty.save_template_rule "tpl_a" "rule_r" "compliant" (mkRat 9 10)
            (some "visual") (some "first")).save_template_rule
          "tpl_a" "rule_r" "non_compliant" (mkRat 7 10) (some "visual")
          (some "second")).get_template_rule "tpl_a" "rule_r"
          = some ⟨"tpl_a", "rule_r", "non_compliant", mkRat 7 10, some "visual",
                  some "second"⟩ :=
  cache_upsert_last_write_wins dbEmpty "tpl_a" "rule_r" "compliant" (mkRat 9 10)
    (some "visual") (some "first") "non_compliant" (mkRat 7 10) (some "visual")
    (some "second") (by decide)

/-- C10: update_rule_status has no existing-template precondition: after
any upsert a templates row for the template id exists — created with
platform unknown when the id was new, and left as it was otherwise — and
the rule decision is stored.  The upsert is total: it never fails because
the template id was previously unknown. -/
theorem cache_upsert_creates_template (db : ComplianceDatabase)
    (tid rule status : String) (c : Rat) (vm n : String) :
    ((update_rule_status db tid rule status c vm n).get_template
        tid).isSome = true
      ∧ (db.get_template tid = none →
          (update_rule_status db tid rule status c vm n).get_template tid
            = some ⟨tid, "unknown"⟩)
      ∧ (∀ tr, db.get_template tid = some tr →
          (update_rule_status db tid rule status c vm n).get_template tid
            = some tr)
      ∧ (update_rule_status db tid rule status c vm n).get_template_rule
          tid rule = some ⟨tid, rule, status, c, some vm, some n⟩ := by
  unfold update_rule_status
  cases hg : db.get_template tid with
  | none =>
    refine ⟨?_, fun _ => ?_, fun tr htr => ?_, ?_⟩
    · rw [get_template_save_rule, get_template_save_self]
      rfl
    · rw [get_template_save_rule, get_template_save_self]
    · cases htr
    · exact get_template_rule_save_self _ tid rule status c
        (some vm) (some n)
  | some t =>
    refine ⟨?_, fun hnone => ?_, fun tr htr => ?_, ?_⟩
    · rw [get_template_save_rule, hg]
      rfl
    · cases hnone
    · cases htr
      rw [get_template_save_rule, hg]
    · exact get_template_rule_save_self _ tid rule status c
        (some vm) (some n)

/-- C10 witness: the theorem applied to the empty store, where tpl_a is
previously unknown. -/
theorem cache_upsert_creates_template_witness :
    (update_rule_status dbEmpty "tpl_a" "rule_r" "compliant" (mkRat 9 10)
        "visual" "note").get_template "tpl_a" = some ⟨"tpl_a", "unknown"⟩ :=
  (cache_upsert_creates_template dbEmpty "tpl_a" "rule_r" "compliant"
    (mkRat 9 10) "visual" "note").2.1 (by decide)

/-- C8: on every completed check the aggregated totals satisfy
total_tokens = text_analysis_tokens + the sum of tokens_used over the
visual-verification list, the text tokens being those of the text result;
in particular with no visual verifications the total equals the text
tokens. -/
theorem token_accounting (env : CheckEnv) (db : ComplianceDatabase)
    (tid ut : String) (skip : Bool) (tr : TextResult) (out : CheckOutcome)
    (h : check_url env db tid ut skip tr = .ok out) :
    out.result.totalTokens
        = out.result.textAnalysisTokens
          + (out.result.visualVerifications.map
              (fun v => v.tokensUsed.getD 0)).sum
      ∧ out.result.textAnalysisTokens = tr.tokensUsed.getD 0
      ∧ (out.result.visualVerifications = [] →
          out.result.totalTokens = out.result.textAnalysisTokens) := by
  unfold check_url at h
  cases hL : (if !skip || pyUpper ut == "HOMEPAGE" then
      runVisualLoop env tid db (selectForEscalation ut tr.violations)
    else .ok ⟨[], db, []⟩) with
  | error e => rw [hL] at h; cases h
  | ok o =>
    rw [hL] at h
    dsimp only at h
    cases h
    refine ⟨rfl, rfl, ?_⟩
    intro hnil
    show tr.tokensUsed.getD 0 + sumVisualTokens o.results
      = tr.tokensUsed.getD 0
    have : o.results = [] := hnil
    rw [this]
    simp [sumVisualTokens]

/-- C8 witness: the theorem applied to a completed text-only run. -/
theorem token_accounting_witness :
    outSkipVdp.result.totalTokens
        = outSkipVdp.result.textAnalysisTokens
          + (outSkipVdp.result.visualVerifications.map
              (fun v => v.tokensUsed.getD 0)).sum :=
  (token_accounting envOk dbEmpty "tpl_a" "VDP" true textNone outSkipVdp
    rfl).1

/-- A failing first step fails the whole visual loop. -/
theorem runVisualLoop_head_error (env : CheckEnv) (tid : String)
    (db : ComplianceDatabase) (v : Violation) (rest : List Violation)
    (e : String) (hstep : visualStep env tid db v = .error e) :
    runVisualLoop env tid db (v :: rest) = .error e := by
  unfold runVisualLoop
  rw [hstep]

/-- C3 counterexample: a concrete check in which scraping, text analysis
and the visual verifier all succeed, but the cache upsert raises; the
check returns the error instead of the obtained visual result, so a cache
write failure does turn the outcome into a failure. -/
theorem cache_write_failure_aborts_check :
    check_url envWriteFail dbEmpty "tpl_a" "VDP" false textViol
      = .error "sqlite3.OperationalError: unable to open database file" :=
  rfl

/-- C3 amended: when a violation escalates, the cache misses, the verifier
succeeds and the subsequent cache upsert raises, the exception propagates
out of check_url, failing the whole check; the fresh visual result is not
returned. -/
theorem cache_write_failure_propagates (env : CheckEnv)
    (db : ComplianceDatabase) (tid ut : String) (skip : Bool)
    (tr : TextResult) (v : Violation) (rest : List Violation)
    (vr : VisResult) (e : String)
    (hbranch : (!skip || pyUpper ut == "HOMEPAGE") = true)
    (hsel : selectForEscalation ut tr.violations = v :: rest)
    (hskip : should_skip_visual_verification db tid v.getRuleKey
      visualConfidenceThreshold = false)
    (hver : env.verify v.getRuleKey v.getRuleViolated = .ok vr)
    (hcw : env.cacheWriteError tid v.getRuleKey = some e) :
    check_url env db tid ut skip tr = .error e := by
  unfold check_url
  rw [if_pos hbranch, hsel,
    runVisualLoop_head_error env tid db v rest e
      (visualStep_writeFailure env tid db v vr e hskip hver hcw)]

/-- C3 witness for the amended claim: the propagation theorem applied to
the concrete failing-write environment. -/
theorem cache_write_failure_propagates_witness :
    check_url envWriteFail dbEmpty "tpl_a" "VDP" false textViol
      = .error "sqlite3.OperationalError: unable to open database file" :=
  cache_write_failure_propagates envWriteFail dbEmpty "tpl_a" "VDP" false
    textViol violLow [] ⟨true, mkRat 9 10, some "evidence", 120⟩
    "sqlite3.OperationalError: unable to open database file"
    rfl rfl rfl rfl rfl

/-- C1: should_skip_visual_verification at the default 0.85 threshold holds
exactly when a cached decision of confidence at least 0.85 exists; and
whenever it holds at the start of a check, that check never invokes the
Visual Verifier for the pair, and every escalated violation carrying the
pair is answered in the result by a VisualVerification built from the
cached entry, with cached true, verification method cached, and
is_compliant exactly when the cached status is compliant. -/
theorem cache_skip_invariant (db : ComplianceDatabase) (tid r : String) :
    (should_skip_visual_verification db tid r visualConfidenceThreshold
        = true
      ↔ ∃ rs, get_rule_status db tid r = some rs
          ∧ visualConfidenceThreshold ≤ rs.confidence)
      ∧ ∀ (env : CheckEnv) (ut : String) (skip : Bool) (tr : TextResult)
          (out : CheckOutcome),
          should_skip_visual_verification db tid r visualConfidenceThreshold
            = true →
          check_url env db tid ut skip tr = .ok out →
          r ∉ out.verifierCalls
            ∧ ∀ v ∈ selectForEscalation ut tr.violations,
                v.getRuleKey = r →
                (!skip || pyUpper ut == "HOMEPAGE") = true →
                ∃ rs, get_rule_status db tid r = some rs
                  ∧ cachedVerification r v.getRuleViolated rs
                      ∈ out.result.visualVerifications := by
  constructor
  · exact should_skip_iff db tid r visualConfidenceThreshold
  · intro env ut skip tr out hskip h
    unfold check_url at h
    by_cases hc : (!skip || pyUpper ut == "HOMEPAGE") = true
    · rw [if_pos hc] at h
      cases hL : runVisualLoop env tid db
          (selectForEscalation ut tr.violations) with
      | error e => rw [hL] at h; cases h
      | ok o =>
        rw [hL] at h
        dsimp only at h
        cases h
        obtain ⟨hpres, hcalls, hmem⟩ :=
          runVisualLoop_skip_frozen env tid r
            (selectForEscalation ut tr.violations) db o hskip hL
        refine ⟨hcalls, ?_⟩
        intro v hv hkey _
        obtain ⟨rs, hrs, hin⟩ := hmem v hv hkey
        exact ⟨rs, hrs, hin⟩
    · rw [if_neg hc] at h
      dsimp only at h
      cases h
      refine ⟨by simp, ?_⟩
      intro v hv hkey hcond
      exact absurd hcond hc

/-- C1 witness: the invariant applied to the store caching (tpl_a, rule_r)
at confidence 0.9 and to a concrete check that escalates rule_r: the
verifier is never called and the cached entry appears in the result. -/
theorem cache_skip_invariant_witness :
    should_skip_visual_verification dbCached "tpl_a" "rule_r"
        visualConfidenceThreshold = true
      ∧ "rule_r" ∉ outCachedRun.verifierCalls
      ∧ cachedVerification "rule_r" "rule text r"
          ⟨"compliant", mkRat 9 10, some "visual", some "seen before"⟩
          ∈ outCachedRun.result.visualVerifications := by
  have h2 := (cache_skip_invariant dbCached "tpl_a" "rule_r").2 envOk "VDP"
    false textViol outCachedRun (by decide) rfl
  refine ⟨by decide, h2.1, ?_⟩
  obtain ⟨rs, hrs, hin⟩ := h2.2 violLow (by decide) rfl rfl
  have : rs = ⟨"compliant", mkRat 9 10, some "visual", some "seen before"⟩ := by
    have := hrs.symm.trans (rfl :
      get_rule_status dbCached "tpl_a" "rule_r"
        = some ⟨"compliant", mkRat 9 10, some "visual", some "seen before"⟩)
    exact Option.some.inj this
  rw [← this]
  exact hin

/-- C2 counterexample: a homepage check whose text analysis produced one
violation qualifying for escalation; the synthetic contact-visibility
check is not added, so the claimed always-performed contact verification
is absent from the escalation set. -/
theorem homepage_contact_check_not_always_added :
    selectForEscalation "HOMEPAGE" [violLow] = [violLow]
      ∧ homepageContactViolation ∉ selectForEscalation "HOMEPAGE" [violLow]
      ∧ violLow.getRuleKey ≠ "homepage_contact_visibility" := by
  refine ⟨rfl, ?_, by decide⟩
  intro hmem
  rw [(rfl : selectForEscalation "HOMEPAGE" [violLow] = [violLow])] at hmem
  exact absurd (List.mem_singleton.mp hmem) (by decide)

/-- C2 amended: for homepage checks the synthetic contact-visibility
violation is appended exactly when no violation qualifies under the
default rule — making the escalation output the singleton synthetic check
in that case, and exactly the qualifying violations otherwise — and a
homepage check that completes always carries at least one visual
verification. -/
theorem homepage_forced_escalation (ut : String) (vs : List Violation)
    (h : pyUpper ut = "HOMEPAGE") :
    (filterNeedsVisual vs = [] →
        selectForEscalation ut vs = [homepageContactViolation])
      ∧ (filterNeedsVisual vs ≠ [] →
          selectForEscalation ut vs = filterNeedsVisual vs)
      ∧ ∀ (env : CheckEnv) (db : ComplianceDatabase) (tid : String)
          (skip : Bool) (tr : TextResult) (out : CheckOutcome),
          tr.violations = vs →
          check_url env db tid ut skip tr = .ok out →
          out.result.visualVerifications ≠ [] := by
  refine ⟨?_, ?_, ?_⟩
  · intro hnil
    unfold selectForEscalation
    rw [hnil, h]
    simp
  · intro hne
    unfold selectForEscalation
    rw [h]
    have : (filterNeedsVisual vs).isEmpty = false := by
      cases hf : filterNeedsVisual vs with
      | nil => exact absurd hf hne
      | cons a l => rfl
    simp [this]
  · intro env db tid skip tr out hvs h2
    unfold check_url at h2
    have hcond : (!skip || pyUpper ut == "HOMEPAGE") = true := by
      rw [h]
      simp
    rw [if_pos hcond] at h2
    cases hL : runVisualLoop env tid db
        (selectForEscalation ut tr.violations) with
    | error e => rw [hL] at h2; cases h2
    | ok o =>
      rw [hL] at h2
      dsimp only at h2
      cases h2
      have hlen := runVisualLoop_length env tid
        (selectForEscalation ut tr.violations) db o hL
      have hpos : (selectForEscalation ut tr.violations).length ≠ 0 := by
        unfold selectForEscalation
        rw [hvs, h]
        cases hf : filterNeedsVisual vs with
        | nil => simp [hf]
        | cons a l => simp [hf]
      intro hnil
      dsimp only at hnil
      rw [hnil] at hlen
      exact hpos hlen.symm

/-- C2 witness: the amended behaviour on a homepage with no qualifying
violations — the escalation set is the synthetic contact check, and the
completed run has a non-empty visual-verification list. -/
theorem homepage_forced_escalation_witness :
    selectForEscalation "HOMEPAGE" [] = [homepageContactViolation]
      ∧ outHomeSkip.result.visualVerifications ≠ [] :=
  ⟨(homepage_forced_escalation "HOMEPAGE" [] rfl).1 rfl,
   (homepage_forced_escalation "HOMEPAGE" [] rfl).2.2 envOk dbEmpty "tpl_a"
     true textNone outHomeSkip rfl rfl⟩

/-- C7 counterexample: a homepage check invoked with skip_visual true on an
empty cache still runs the visual phase: the forced contact check is
escalated, the Visual Verifier is invoked, and the result is not
text-only — the flag does not suppress the homepage escalation. -/
theorem skip_visual_does_not_suppress_homepage :
    check_url envOk dbEmpty "tpl_a" "HOMEPAGE" true textNone
        = .ok outHomeSkip
      ∧ outHomeSkip.result.visualVerifications ≠ []
      ∧ outHomeSkip.verifierCalls = ["homepage_contact_visibility"] := by
  refine ⟨rfl, ?_, rfl⟩
  intro h
  cases h

/-- C7 amended: skip_visual true yields a text-only result — empty
visual-verification list, no verifier call, untouched store — for every
check whose url type is not a homepage; for homepages the flag has no
effect at all: the check behaves exactly as with skip_visual false. -/
theorem skip_visual_flag_behavior (env : CheckEnv)
    (db : ComplianceDatabase) (tid ut : String) (tr : TextResult) :
    (pyUpper ut ≠ "HOMEPAGE" →
        check_url env db tid ut true tr
          = .ok ⟨{ violations := tr.violations,
                   visualVerifications := [],
                   templateId := tid,
                   textAnalysisTokens := tr.tokensUsed.getD 0,
                   visualTokens := 0,
                   totalTokens := tr.tokensUsed.getD 0 }, db, []⟩)
      ∧ (pyUpper ut = "HOMEPAGE" →
          check_url env db tid ut true tr
            = check_url env db tid ut false tr) := by
  constructor
  · intro h
    unfold check_url
    have hcond : (!true || pyUpper ut == "HOMEPAGE") = false := by
      simp [h]
    rw [hcond]
    simp [sumVisualTokens]
  · intro h
    unfold check_url
    rw [h]
    simp

/-- C7 witness: the amended behaviour at concrete inputs — a VDP check
with skip_visual true is text-only, and a homepage check ignores the
flag. -/
theorem skip_visual_flag_behavior_witness :
    check_url envOk dbEmpty "tpl_a" "VDP" true textNone = .ok outSkipVdp
      ∧ check_url envOk dbEmpty "tpl_a" "HOMEPAGE" true textNone
          = check_url envOk dbEmpty "tpl_a" "HOMEPAGE" false textNone :=
  ⟨(skip_visual_flag_behavior envOk dbEmpty "tpl_a" "VDP" textNone).1
     (by decide),
   (skip_visual_flag_behavior envOk dbEmpty "tpl_a" "HOMEPAGE" textNone).2
     rfl⟩

/-- C5: template resolution follows the five-tier override hierarchy with
first match winning and no merging: the explicit override when supplied
(truthy) and present; else the per-URL template under url_ plus the
normalized domain; else the per-page-type default under urlType lowercased
plus _default when a page type is supplied; else the per-platform default
under platform lowercased plus _vdp when a platform is supplied and not
the unknown sentinel; else the generic fallback; and when the generic
fallback itself is missing, resolution fails with an error instead of
returning a template.  Each conclusion returns exactly the single stored
configuration of its tier. -/
theorem template_resolution_hierarchy (store : ExtractionStore)
    (url : String) (platform template_override : Option String)
    (url_type : String) :
    (∀ c, pyTruthy template_override = true →
        store.load_template (template_override.getD "") = some c →
        store.get_template url platform template_override url_type
          = .ok (ExtractionTemplate.ofRow c))
      ∧ (∀ c, (pyTruthy template_override = false
            ∨ store.load_template (template_override.getD "") = none) →
          store.load_template (urlTemplateId url) = some c →
          store.get_template url platform template_override url_type
            = .ok (ExtractionTemplate.ofRow c))
      ∧ (∀ c, (pyTruthy template_override = false
            ∨ store.load_template (template_override.getD "") = none) →
          store.load_template (urlTemplateId url) = none →
          url_type.isEmpty = false →
          store.load_template (typeTemplateId url_type) = some c →
          store.get_template url platform template_override url_type
            = .ok (ExtractionTemplate.ofRow c))
      ∧ (∀ c, (pyTruthy template_override = false
            ∨ store.load_template (template_override.getD "") = none) →
          store.load_template (urlTemplateId url) = none →
          (url_type.isEmpty = true
            ∨ store.load_template (typeTemplateId url_type) = none) →
          pyTruthy platform = true →
          ((platform.getD "") != "unknown") = true →
          store.load_template (platformTemplateId (platform.getD ""))
            = some c →
          store.get_template url platform template_override url_type
            = .ok (ExtractionTemplate.ofRow c))
      ∧ (∀ c, (pyTruthy template_override = false
            ∨ store.load_template (template_override.getD "") = none) →
          store.load_template (urlTemplateId url) = none →
          (url_type.isEmpty = true
            ∨ store.load_template (typeTemplateId url_type) = none) →
          (pyTruthy platform = false
            ∨ ((platform.getD "") != "unknown") = false
            ∨ store.load_template (platformTemplateId (platform.getD ""))
                = none) →
          store.load_template "generic_fallback" = some c →
          store.get_template url platform template_override url_type
            = .ok (ExtractionTemplate.ofRow c))
      ∧ ((pyTruthy template_override = false
            ∨ store.load_template (template_override.getD "") = none) →
          store.load_template (urlTemplateId url) = none →
          (url_type.isEmpty = true
            ∨ store.load_template (typeTemplateId url_type) = none) →
          (pyTruthy platform = false
            ∨ ((platform.getD "") != "unknown") = false
            ∨ store.load_template (platformTemplateId (platform.getD ""))
                = none) →
          store.load_template "generic_fallback" = none →
          store.get_template url platform template_override url_type
            = .error
                "AttributeError: NoneType object has no attribute get") := by
  have hoMiss : (pyTruthy template_override = false
      ∨ store.load_template (template_override.getD "") = none) →
      (if pyTruthy template_override then
        store.load_template (template_override.getD "")
      else none) = none := by
    rintro (h | h)
    · rw [h]
      rfl
    · rw [h]
      exact ite_self none
  have htMiss : (url_type.isEmpty = true
      ∨ store.load_template (typeTemplateId url_type) = none) →
      (if !url_type.isEmpty then
        store.load_template (typeTemplateId url_type)
      else none) = none := by
    rintro (h | h)
    · rw [h]
      rfl
    · rw [h]
      exact ite_self none
  have hpMiss : (pyTruthy platform = false
      ∨ ((platform.getD "") != "unknown") = false
      ∨ store.load_template (platformTemplateId (platform.getD ""))
          = none) →
      (if pyTruthy platform && ((platform.getD "") != "unknown") then
        store.load_template (platformTemplateId (platform.getD ""))
      else none) = none := by
    rintro (h | h | h)
    · rw [h]
      rfl
    · simp [h]
    · rw [h]
      exact ite_self none
  refine ⟨?_, ?_, ?_, ?_, ?_, ?_⟩
  · intro c hT hL
    unfold ExtractionStore.get_template
    rw [if_pos hT, hL]
  · intro c ho hU
    unfold ExtractionStore.get_template
    rw [hoMiss ho, hU]
  · intro c ho hu ht hT
    unfold ExtractionStore.get_template
    have : (if !url_type.isEmpty then
        store.load_template (typeTemplateId url_type)
      else none) = store.load_template (typeTemplateId url_type) := by
      rw [ht]
      rfl
    rw [hoMiss ho, hu, this, hT]
  · intro c ho hu ht hp1 hp2 hP
    unfold ExtractionStore.get_template
    have : (if pyTruthy platform && ((platform.getD "") != "unknown") then
        store.load_template (platformTemplateId (platform.getD ""))
      else none)
        = store.load_template (platformTemplateId (platform.getD "")) := by
      rw [hp1, hp2]
      rfl
    rw [hoMiss ho, hu, htMiss ht, this, hP]
  · intro c ho hu ht hp hG
    unfold ExtractionStore.get_template
    rw [hoMiss ho, hu, htMiss ht, hpMiss hp, hG]
  · intro ho hu ht hp hG
    unfold ExtractionStore.get_template
    rw [hoMiss ho, hu, htMiss ht, hpMiss hp, hG]

/-- C5 witness: the hierarchy on a concrete store holding a template at
every tier — supplying the override returns it; dropping each tier in turn
yields the per-URL template, the page-type default, the platform default,
the generic fallback, and finally the fatal error on an empty store. -/
theorem template_resolution_hierarchy_witness :
    storeAll.get_template urlW (some "cars") (some "ovr_tpl") "VDP"
        = .ok (ExtractionTemplate.ofRow (rowFor "ovr_tpl"))
      ∧ storeAll.get_template urlW (some "cars") none "VDP"
          = .ok (ExtractionTemplate.ofRow (rowFor "url_example_com"))
      ∧ storeAll.get_template "https://other.com/x" (some "cars") none "VDP"
          = .ok (ExtractionTemplate.ofRow (rowFor "vdp_default"))
      ∧ storeAll.get_template "https://other.com/x" (some "cars") none
            "SPECIALS"
          = .ok (ExtractionTemplate.ofRow (rowFor "cars_vdp"))
      ∧ storeAll.get_template "https://other.com/x" none none "SPECIALS"
          = .ok (ExtractionTemplate.ofRow (rowFor "generic_fallback"))
      ∧ storeEmpty.get_template "https://other.com/x" none none "SPECIALS"
          = .error "AttributeError: NoneType object has no attribute get" :=
  ⟨(template_resolution_hierarchy storeAll urlW (some "cars")
      (some "ovr_tpl") "VDP").1 (rowFor "ovr_tpl") rfl rfl,
   (template_resolution_hierarchy storeAll urlW (some "cars") none
      "VDP").2.1 (rowFor "url_example_com") (Or.inl rfl) rfl,
   (template_resolution_hierarchy storeAll "https://other.com/x"
      (some "cars") none "VDP").2.2.1 (rowFor "vdp_default") (Or.inl rfl)
      rfl rfl rfl,
   (template_resolution_hierarchy storeAll "https://other.com/x"
      (some "cars") none "SPECIALS").2.2.2.1 (rowFor "cars_vdp")
      (Or.inl rfl) rfl (Or.inr rfl) rfl rfl rfl,
   (template_resolution_hierarchy storeAll "https://other.com/x" none none
      "SPECIALS").2.2.2.2.1 (rowFor "generic_fallback") (Or.inl rfl) rfl
      (Or.inr rfl) (Or.inl rfl) rfl,
   (template_resolution_hierarchy storeEmpty "https://other.com/x" none
      none "SPECIALS").2.2.2.2.2 (Or.inl rfl) rfl (Or.inr rfl) (Or.inl rfl)
      rfl⟩

/-- C9: ExtractionTemplate.extract is total over per-section failures: the
extraction loop equals the per-section map over extraction_order, so a
section whose selector lookup is missing, whose selectors all miss, whose
first match has empty text, or whose attempt raises, is simply omitted,
while every other section whose first matching selector produced non-empty
text appears, stripped, in order; membership depends only on the section's
own evaluation. -/
theorem extract_total_per_section (tpl : ExtractionTemplate) (page : Page) :
    tpl.extract page
        = tpl.extractionOrder.filterMap
            (fun s => (sectionResult tpl page s).map (fun t => (s, t)))
      ∧ ∀ s t, (s, t) ∈ tpl.extract page
          ↔ s ∈ tpl.extractionOrder
              ∧ sectionResult tpl page s = some t := by
  have hmain : ∀ order : List String,
      extractLoop tpl page order
        = order.filterMap
            (fun s => (sectionResult tpl page s).map (fun t => (s, t))) := by
    intro order
    induction order with
    | nil => rfl
    | cons sec rest ih =>
      rw [List.filterMap_cons]
      cases hsel : lookupSelector tpl.selectors sec with
      | none => simp [extractLoop, sectionResult, hsel, ih]
      | some sel =>
        by_cases he : sel.isEmpty = true
        · simp [extractLoop, sectionResult, hsel, he, ih]
        · cases hfc : firstSelectorContent page (splitSelectors sel) with
          | error u => simp [extractLoop, sectionResult, hsel, he, hfc, ih]
          | ok oc =>
            cases oc with
            | none => simp [extractLoop, sectionResult, hsel, he, hfc, ih]
            | some t =>
              by_cases ht : t.isEmpty = true
              · simp [extractLoop, sectionResult, hsel, he, hfc, ht, ih]
              · simp [extractLoop, sectionResult, hsel, he, hfc, ht, ih]
  refine ⟨hmain tpl.extractionOrder, ?_⟩
  intro s t
  show (s, t) ∈ extractLoop tpl page tpl.extractionOrder ↔ _
  rw [hmain tpl.extractionOrder, List.mem_filterMap]
  constructor
  · rintro ⟨a, ha, hfa⟩
    rcases Option.map_eq_some'.mp hfa with ⟨u, hu, heq⟩
    cases heq
    exact ⟨ha, hu⟩
  · rintro ⟨hs, hres⟩
    refine ⟨s, hs, ?_⟩
    rw [hres]
    rfl

/-- C9 witness: the characterization applied to a concrete template and
page in which one selector misses, one yields padded text and one raises:
only the stripped price section survives. -/
theorem extract_total_per_section_witness :
    tplFix.extract pageFix
        = tplFix.extractionOrder.filterMap
            (fun s => (sectionResult tplFix pageFix s).map (fun t => (s, t)))
      ∧ tplFix.extract pageFix = [("price", "12000 USD")] :=
  ⟨(extract_total_per_section tplFix pageFix).1, rfl⟩

end AutoAudit
